import Mathlib

/-!
Verification of the EasunPy ASCII inverter client and its Home Assistant
data collector.  The Python sources are shallowly embedded: byte strings
become `List Nat` (each element `< 256`), Python `float`s become exact
rationals `ℚ`, fallible code returns `Except PyErr`.
-/

namespace Easun

/-! ## Checksum / framing codec (easunpy/async_ascii_isolar.py) -/

/-- One iteration of the inner loop of `_compute_crc_xmodem`
(lines 33-37): test bit 15, shift left, conditionally XOR the
polynomial 0x1021, mask to 16 bits. -/
def crcStep (crc : Nat) : Nat :=
  if crc &&& 0x8000 ≠ 0 then ((crc <<< 1) ^^^ 0x1021) &&& 0xFFFF
  else (crc <<< 1) &&& 0xFFFF

/-- Processing of one byte in `_compute_crc_xmodem`: XOR the byte into
the high 8 bits, then run the inner loop 8 times (`for _ in range(8)`). -/
def crcByte (crc b : Nat) : Nat := crcStep^[8] (crc ^^^ (b <<< 8))

/-- `_compute_crc_xmodem(data)`: fold over the bytes starting from 0. -/
def computeCrcXmodem (data : List Nat) : Nat := data.foldl crcByte 0

/-- The checksum variant described literally by the claim's words
"16 shifts per byte": identical except the inner loop runs 16 times. -/
def crcByte16 (crc b : Nat) : Nat := crcStep^[16] (crc ^^^ (b <<< 8))

/-- Byte-wise fold of the 16-shifts-per-byte variant. -/
def crc16Shifts (data : List Nat) : Nat := data.foldl crcByte16 0

/-- Reference bit-serial CRC step, written from the spec's description
of the algorithm: MSB-first, polynomial 0x1021, no reflection.  The
incoming message bit is compared with the register's bit 15; the
register is shifted left one position (kept to 16 bits) and the
polynomial is XORed in exactly when the two bits differ. -/
def crcBitStep (crc : Nat) (bit : Bool) : Nat :=
  if crc.testBit 15 ≠ bit then ((crc <<< 1) &&& 0xFFFF) ^^^ 0x1021
  else (crc <<< 1) &&& 0xFFFF

/-- The `n` low bits of `b`, most significant first. -/
def msbBits (n b : Nat) : List Bool :=
  (List.range n).map (fun i => b.testBit (n - 1 - i))

/-- Reference CRC of a byte sequence: each byte is consumed as its
8 bits, most significant bit first, starting from register value 0. -/
def crcBitsSpec (data : List Nat) : Nat :=
  data.foldl (fun crc b => (msbBits 8 b).foldl crcBitStep crc) 0

/-- `_adjust_crc_byte` (lines 40-43): bump the bytes the device's
line-oriented receiver treats as control characters. -/
def adjustCrcByte (b : Nat) : Nat :=
  if b = 0x0A ∨ b = 0x0D ∨ b = 0x28 then (b + 1) &&& 0xFF else b

/-- `_build_packet` (lines 45-58): command bytes, adjusted CRC high/low
bytes and a trailing CR form the payload; an 8-byte header records the
transaction id, protocol id 0x0001, `len(payload) + 2`, unit id 0xFF
and function code 0x04. -/
def buildPacket (cmd : List Nat) (transId : Nat) : List Nat :=
  let crc := computeCrcXmodem cmd
  let hi := adjustCrcByte ((crc >>> 8) &&& 0xFF)
  let lo := adjustCrcByte (crc &&& 0xFF)
  let payload := cmd ++ [hi, lo, 0x0D]
  let length := payload.length + 2
  [(transId >>> 8) &&& 0xFF, transId &&& 0xFF,
   0x00, 0x01,
   (length >>> 8) &&& 0xFF, length &&& 0xFF,
   0xFF, 0x04] ++ payload

/-- `_send_command` line 97: `int.from_bytes(hdr[4:6], "big")` on the
6-byte reply header. -/
def parseFrameHeader (hdr : List Nat) : Nat :=
  (hdr.getD 4 0) * 256 + hdr.getD 5 0

/-- Byte values of an ASCII string (Python `str.encode("ascii")`). -/
def asciiBytes (s : String) : List Nat := s.toList.map Char.toNat

/-! ## Python runtime primitives used by the parsers

Python `float` values are modelled as exact rationals, exceptions as an
explicit error type. -/

/-- The Python exceptions the parsing layer can raise. -/
inductive PyErr
  | indexError
  | valueError
deriving DecidableEq, Repr

deriving instance DecidableEq for Except

/-- Membership in Python's `strip("()")` character set. -/
def isParen (c : Char) : Bool := c == '(' || c == ')'

/-- Python `str.strip("()")`: remove leading and trailing characters
drawn from the two-character set. -/
def stripParens (s : String) : String :=
  ⟨((s.toList.dropWhile isParen).reverse.dropWhile isParen).reverse⟩

/-- Python whitespace for `str.split()` with no argument. -/
def isPySpace (c : Char) : Bool :=
  c == ' ' || c == '\t' || c == '\n' || c == '\r' || c == '\x0b' || c == '\x0c'

/-- Worker for `str.split()`: split on runs of whitespace, never
producing empty fields.  The accumulator holds the current field
reversed. -/
def splitWsAux : List Char → List Char → List String
  | [], acc => if acc.isEmpty then [] else [⟨acc.reverse⟩]
  | c :: cs, acc =>
    if isPySpace c then
      if acc.isEmpty then splitWsAux cs [] else ⟨acc.reverse⟩ :: splitWsAux cs []
    else splitWsAux cs (c :: acc)

/-- Python `str.split()` with no argument. -/
def splitWs (s : String) : List String := splitWsAux s.toList []

/-- `raw.strip("()").split()`, the shared first step of every parser. -/
def fieldsOf (raw : String) : List String := splitWs (stripParens raw)

/-- Decimal digits to a natural number (most significant first). -/
def digitsToNat : List Char → Nat → Option Nat
  | [], acc => some acc
  | c :: cs, acc =>
    if c.isDigit then digitsToNat cs (acc * 10 + (c.toNat - 48)) else none

/-- Python `float(str)` on the plain decimal forms this protocol
produces: optional sign, integer digits, optional fraction.
Exponents/inf/nan are rejected; the value is kept as an exact
rational. -/
def parsePyFloat (s : String) : Option ℚ :=
  let l := s.toList
  let sl : ℚ × List Char :=
    match l with
    | '-' :: r => (-1, r)
    | '+' :: r => (1, r)
    | _ => (1, l)
  let intChars := sl.2.takeWhile Char.isDigit
  let rest := sl.2.drop intChars.length
  match rest with
  | [] =>
    if intChars.isEmpty then none
    else (digitsToNat intChars 0).map (fun n => sl.1 * n)
  | '.' :: fracChars =>
    if fracChars.all Char.isDigit && !(intChars.isEmpty && fracChars.isEmpty) then
      match digitsToNat intChars 0, digitsToNat fracChars 0 with
      | some ip, some fp =>
        some (sl.1 * ((ip : ℚ) + (fp : ℚ) / ((10 : ℚ) ^ fracChars.length)))
      | _, _ => none
    else none
  | _ => none

/-- Python `int(str)`: optional sign, decimal digits only. -/
def parsePyInt (s : String) : Option Int :=
  let l := s.toList
  let sl : Int × List Char :=
    match l with
    | '-' :: r => (-1, r)
    | '+' :: r => (1, r)
    | _ => (1, l)
  if sl.2.isEmpty then none
  else if sl.2.all Char.isDigit then (digitsToNat sl.2 0).map (fun n => sl.1 * n)
  else none

/-- Python `int()` applied to a float value: truncation toward zero. -/
def pyTrunc (q : ℚ) : Int := if 0 ≤ q then ⌊q⌋ else ⌈q⌉

/-- Python list indexing `f[i]`: `IndexError` when out of range. -/
def fieldAt (f : List String) (i : Nat) : Except PyErr String :=
  match f.get? i with
  | some v => .ok v
  | none => .error .indexError

/-- `float(f[i])` conversion step (`ValueError` on malformed text). -/
def pyFloatE (s : String) : Except PyErr ℚ :=
  match parsePyFloat s with
  | some q => .ok q
  | none => .error .valueError

/-- `int(f[i])` conversion step. -/
def pyIntE (s : String) : Except PyErr Int :=
  match parsePyInt s with
  | some n => .ok n
  | none => .error .valueError

/-- `int(float(f[i]))` conversion step. -/
def pyIntOfFloatE (s : String) : Except PyErr Int := (pyFloatE s).map pyTrunc

/-! ## Response parsers (easunpy/async_ascii_isolar.py) -/

/-- The dictionary produced by `_parse_qpigs`. -/
structure QpigsData where
  grid_voltage : ℚ
  grid_frequency : ℚ
  output_voltage : ℚ
  output_frequency : ℚ
  apparent_power : Int
  active_power : Int
  load_percent : Int
  bus_voltage : ℚ
  battery_voltage : ℚ
  battery_current : ℚ
  battery_soc : Int
  battery_temp : Int
  pv_current : ℚ
  pv_voltage : ℚ
  pv_charge_power : Int
deriving DecidableEq, Repr

/-- `_parse_qpigs` (lines 107-125): strictly positional, no length
guard — a missing index raises `IndexError`. -/
def parseQpigs (raw : String) : Except PyErr QpigsData := do
  let f := fieldsOf raw
  let grid_voltage ← pyFloatE (← fieldAt f 0)
  let grid_frequency ← pyFloatE (← fieldAt f 1)
  let output_voltage ← pyFloatE (← fieldAt f 2)
  let output_frequency ← pyFloatE (← fieldAt f 3)
  let apparent_power ← pyIntOfFloatE (← fieldAt f 4)
  let active_power ← pyIntOfFloatE (← fieldAt f 5)
  let load_percent ← pyIntE (← fieldAt f 6)
  let bus_voltage ← pyFloatE (← fieldAt f 7)
  let battery_voltage ← pyFloatE (← fieldAt f 8)
  let battery_current ← pyFloatE (← fieldAt f 9)
  let battery_soc ← pyIntE (← fieldAt f 10)
  let battery_temp ← pyIntOfFloatE (← fieldAt f 11)
  let pv_current ← pyFloatE (← fieldAt f 12)
  let pv_voltage ← pyFloatE (← fieldAt f 13)
  let pv_charge_power ← pyIntOfFloatE (← fieldAt f 19)
  .ok { grid_voltage, grid_frequency, output_voltage, output_frequency,
        apparent_power, active_power, load_percent, bus_voltage,
        battery_voltage, battery_current, battery_soc, battery_temp,
        pv_current, pv_voltage, pv_charge_power }

/-- The dictionary produced by `_parse_qpigs2`. -/
structure Qpigs2Data where
  pv2_current : ℚ
  pv2_voltage : ℚ
  pv2_power : Int
deriving DecidableEq, Repr

/-- `_parse_qpigs2` (lines 127-133): no length guard either. -/
def parseQpigs2 (raw : String) : Except PyErr Qpigs2Data := do
  let f := fieldsOf raw
  let pv2_current ← pyFloatE (← fieldAt f 0)
  let pv2_voltage ← pyFloatE (← fieldAt f 1)
  let pv2_power ← pyIntOfFloatE (← fieldAt f 2)
  .ok { pv2_current, pv2_voltage, pv2_power }

/-- `_parse_qmod` (lines 135-144): single-character mode code mapped
through a fixed table, unknown codes pass through. -/
def parseQmod (raw : String) : String :=
  let code := stripParens raw
  if code = "P" then "Power On Mode"
  else if code = "S" then "Standby Mode"
  else if code = "L" then "Line Mode"
  else if code = "B" then "Battery Mode"
  else if code = "F" then "Fault Mode"
  else if code = "H" then "Power Saving Mode"
  else code

/-- Battery-type enumeration in `_parse_qpiri` (line 152). -/
def qpiriBatteryType (v : String) : String :=
  if v = "0" then "AGM" else if v = "1" then "Flooded"
  else if v = "2" then "User" else v

/-- Input-voltage-range enumeration (line 153). -/
def qpiriInputRange (v : String) : String :=
  if v = "0" then "Appliance" else if v = "1" then "UPS" else v

/-- Output-source-priority enumeration (line 154). -/
def qpiriOutputSource (v : String) : String :=
  if v = "0" then "UtilitySolarBat" else if v = "1" then "SolarUtilityBat"
  else if v = "2" then "SolarBatUtility" else v

/-- Charger-source-priority enumeration (line 155). -/
def qpiriChargerSource (v : String) : String :=
  if v = "1" then "Solar first" else if v = "2" then "Solar + Utility"
  else if v = "3" then "Only solar charging permitted" else v

/-- Machine-type enumeration (line 156). -/
def qpiriMachineType (v : String) : String :=
  if v = "00" then "Grid tie" else if v = "01" then "Off Grid"
  else if v = "10" then "Hybrid" else v

/-- Topology enumeration (line 157). -/
def qpiriTopology (v : String) : String :=
  if v = "0" then "transformerless" else if v = "1" then "transformer" else v

/-- Output-mode enumeration (lines 158-163). -/
def qpiriOutputMode (v : String) : String :=
  if v = "00" then "single machine output"
  else if v = "01" then "parallel output"
  else if v = "02" then "Phase 1 of 3 Phase output"
  else if v = "03" then "Phase 2 of 3 Phase output"
  else if v = "04" then "Phase 3 of 3 Phase output"
  else if v = "05" then "Phase 1 of 2 Phase output"
  else if v = "06" then "Phase 2 of 2 Phase output (120°)"
  else if v = "07" then "Phase 2 of 2 Phase output (180°)"
  else v

/-- `_parse_qpiri` (lines 146-193): with fewer than 27 fields an
explicit error entry is returned; otherwise a fixed table of friendly
names to formatted values (preserving the source's insertion order). -/
def parseQpiri (raw : String) : List (String × String) :=
  let f := fieldsOf raw
  if f.length < 27 then [("error", "Invalid QPIRI response")]
  else
    let g := fun (i : Nat) => f.getD i ""
    [("Grid Rating Voltage", g 0 ++ " V"),
     ("Grid Rating Current", g 1 ++ " A"),
     ("AC Output Rating Voltage", g 2 ++ " V"),
     ("AC Output Rating Frequency", g 3 ++ " Hz"),
     ("AC Output Rating Current", g 4 ++ " A"),
     ("AC Output Rating Apparent Power", g 5 ++ " VA"),
     ("AC Output Rating Active Power", g 6 ++ " W"),
     ("Battery Rating Voltage", g 7 ++ " V"),
     ("Battery Re-Charge Voltage", g 8 ++ " V"),
     ("Battery Under Voltage", g 9 ++ " V"),
     ("Battery Bulk Voltage", g 10 ++ " V"),
     ("Battery Float Voltage", g 11 ++ " V"),
     ("Battery Type", qpiriBatteryType (g 12)),
     ("Max AC Charging Current", g 13 ++ " A"),
     ("Max Charging Current", g 14 ++ " A"),
     ("Input Voltage Range", qpiriInputRange (g 15)),
     ("Output Source Priority", qpiriOutputSource (g 16)),
     ("Charger Source Priority", qpiriChargerSource (g 17)),
     ("Parallel Max Num", g 18),
     ("Machine Type", qpiriMachineType (g 19)),
     ("Topology", qpiriTopology (g 20)),
     ("Output Mode", qpiriOutputMode (g 21)),
     ("Battery Re-Discharge Voltage", g 22 ++ " V"),
     ("PV OK Condition", g 23),
     ("PV Power Balance", g 24),
     ("Max Charging Time at CV Stage", g 25 ++ " min"),
     ("Max Discharging Current", g 26 ++ " A")]

/-- The sparse warning table of `_parse_qpiws` (lines 200-232), in
source order. -/
def warnTable : List (Nat × String) :=
  [(0, "Reserved"), (1, "Inverter fault"), (2, "Bus over"), (3, "Bus under"),
   (4, "Bus soft fail"), (5, "Line fail"), (6, "OPV short"),
   (7, "Inverter voltage low"), (8, "Inverter voltage high"),
   (9, "Inverter soft fail"), (10, "Inverter over current"),
   (11, "Inverter over load"), (12, "Inverter over temperature"),
   (13, "Fan locked"), (14, "Battery voltage high"), (15, "Battery low alarm"),
   (17, "Battery under shutdown"), (19, "Over load"), (20, "EEPROM fault"),
   (21, "Inverter over current"), (22, "Inverter soft fail"),
   (23, "Self test fail"), (24, "OP DC voltage over"), (25, "Battery open"),
   (26, "Current sensor fail"), (27, "Battery short"), (28, "Power limit"),
   (29, "PV voltage high"), (30, "MPPT overload fault"),
   (31, "MPPT overload warning"), (32, "Battery too low to charge")]

/-- `_parse_qpiws` (lines 195-235): bit string of at least 32
positions; shorter input yields an explicit marker, no set bit yields
`"No warnings"`. -/
def parseQpiws (raw : String) : List String :=
  let bits := (stripParens raw).toList
  if bits.length < 32 then ["Invalid QPIWS response"]
  else
    let ws := warnTable.filterMap (fun p =>
      if p.1 < bits.length && bits.getD p.1 ' ' == '1' then some p.2 else none)
    if ws.isEmpty then ["No warnings"] else ws

/-! ## Typed data model (easunpy/models.py, fields as constructed by
`get_all_data`) -/

/-- `BatteryData` dataclass. -/
structure BatteryData where
  voltage : ℚ
  current : ℚ
  power : Int
  soc : Int
  temperature : Int
deriving DecidableEq, Repr

/-- `PVData` dataclass (field types follow the values `get_all_data`
actually passes). -/
structure PVData where
  total_power : Int
  charging_power : Int
  charging_current : ℚ
  temperature : ℚ
  pv1_voltage : ℚ
  pv1_current : ℚ
  pv1_power : Int
  pv2_voltage : ℚ
  pv2_current : ℚ
  pv2_power : Int
  pv_generated_today : ℚ
  pv_generated_total : ℚ
deriving DecidableEq, Repr

/-- `GridData` dataclass. -/
structure GridData where
  voltage : ℚ
  power : Int
  frequency : Int
deriving DecidableEq, Repr

/-- `OutputData` dataclass. -/
structure OutputData where
  voltage : ℚ
  current : ℚ
  power : Int
  apparent_power : Int
  load_percentage : Int
  frequency : Int
deriving DecidableEq, Repr

/-- `SystemStatus` as constructed by the ASCII client (the richer of
the two revisions, the one `sensor.py` reads).  The wall-clock
`inverter_time` is modelled as `Unit`. -/
structure SystemStatus where
  operating_mode : Option Int
  mode_name : String
  inverter_time : Unit
  inverter_info : List (String × String)
  warnings : List String
deriving DecidableEq, Repr

/-- `BatteryData(...)` construction in `get_all_data` (lines 258-264):
note `power` uses Python `int()`, i.e. truncation toward zero. -/
def mkBatteryData (p1 : QpigsData) : BatteryData :=
  { voltage := p1.battery_voltage
    current := p1.battery_current
    power := pyTrunc (p1.battery_voltage * p1.battery_current)
    soc := p1.battery_soc
    temperature := p1.battery_temp }

/-- `PVData(...)` construction (lines 265-278). -/
def mkPVData (p1 : QpigsData) (p2 : Qpigs2Data) : PVData :=
  { total_power := p1.pv_charge_power
    charging_power := p1.pv_charge_power
    charging_current := p1.pv_current
    temperature := 0
    pv1_voltage := p1.pv_voltage
    pv1_current := p1.pv_current
    pv1_power := pyTrunc (p1.pv_voltage * p1.pv_current)
    pv2_voltage := p2.pv2_voltage
    pv2_current := p2.pv2_current
    pv2_power := p2.pv2_power
    pv_generated_today := 0
    pv_generated_total := 0 }

/-- `GridData(...)` construction (lines 279-283). -/
def mkGridData (p1 : QpigsData) : GridData :=
  { voltage := p1.grid_voltage
    power := p1.active_power
    frequency := pyTrunc (p1.grid_frequency * 100) }

/-- `OutputData(...)` construction (lines 284-291): the division by
the output voltage is guarded by Python truthiness (`0.0` is falsy). -/
def mkOutputData (p1 : QpigsData) : OutputData :=
  { voltage := p1.output_voltage
    current := if p1.output_voltage = 0 then 0
               else (p1.active_power : ℚ) / p1.output_voltage
    power := p1.active_power
    apparent_power := p1.apparent_power
    load_percentage := p1.load_percent
    frequency := pyTrunc (p1.output_frequency * 100) }

/-- `SystemStatus(...)` construction (lines 292-298). -/
def mkSystemStatus (modeName : String) (info : List (String × String))
    (warns : List String) : SystemStatus :=
  { operating_mode := none
    mode_name := modeName
    inverter_time := ()
    inverter_info := info
    warnings := warns }

/-- The parse-and-build tail of `get_all_data` (lines 252-300), as a
function of the five raw replies; any parser exception propagates. -/
def getAllDataParse (rawQpigs rawQpiri rawQmod rawQpiws rawQpigs2 : String) :
    Except PyErr (BatteryData × PVData × GridData × OutputData × SystemStatus) := do
  let p1 ← parseQpigs rawQpigs
  let p2 ← parseQpigs2 rawQpigs2
  let modeName := parseQmod rawQmod
  let info := parseQpiri rawQpiri
  let warns := parseQpiws rawQpiws
  .ok (mkBatteryData p1, mkPVData p1 p2, mkGridData p1, mkOutputData p1,
       mkSystemStatus modeName info warns)

/-! ## Poll-cycle command sequencing (get_all_data, lines 237-242) -/

/-- `self.commands` as assigned in `AsyncAsciiISolar.__init__`
(line 21). -/
def commandSeq : List String := ["QPIGS", "QPIRI", "QMOD", "QPIWS", "QPIGS2"]

/-- The command order stated by the specification (§4.4):
device-rating first. -/
def specCommandSeq : List String := ["QPIRI", "QPIGS", "QMOD", "QPIWS", "QPIGS2"]

/-- Observable steps of the command loop. -/
inductive PollStep
  | send (cmd : String)
  | delayMs (ms : Nat)
deriving DecidableEq, Repr

/-- The command loop of `get_all_data` (lines 240-242): for each
command in order, send it and then `await asyncio.sleep(0.3)`
(300 ms). -/
def pollSteps : List PollStep :=
  commandSeq.foldr (fun c acc => PollStep.send c :: PollStep.delayMs 300 :: acc) []

/-- Projection of the commands actually sent, in order. -/
def sentCommands (steps : List PollStep) : List String :=
  steps.filterMap (fun s => match s with
    | PollStep.send c => some c
    | PollStep.delayMs _ => none)

/-! ## Connection lifecycle (textual variant) -/

/-- A TCP connection handle; `isOpen` tracks whether the transport has
been closed. -/
structure Conn where
  id : Nat
  isOpen : Bool
deriving DecidableEq, Repr

/-- The connection-related attributes of `AsyncAsciiISolar`:
`_reader`/`_writer` (kept even after closing) and the listening
server. -/
structure NetState where
  reader : Option Conn
  writer : Option Conn
  serverOpen : Bool
  nextId : Nat
deriving DecidableEq, Repr

/-- State after `__init__`: no reader, no writer, no listener. -/
def initNetState : NetState :=
  { reader := none, writer := none, serverOpen := false, nextId := 0 }

/-- Observable networking events of a poll cycle. -/
inductive NetEvent
  | udpDiscover
  | listenStart
  | connAccepted (id : Nat)
  | wrote (id : Nat) (wasOpen : Bool)
  | closedWriter (id : Nat)
  | closedServer
deriving DecidableEq, Repr

/-- `_ensure_connection` (lines 83-86): the UDP connect-back
negotiation and inbound TCP accept run only when `self._reader` is
falsy.  A `StreamReader` object is always truthy, so a previously
closed connection still counts as present. -/
def ensureConnection (s : NetState) : NetState × List NetEvent :=
  match s.reader with
  | some _ => (s, [])
  | none =>
    let c : Conn := { id := s.nextId, isOpen := true }
    ({ reader := some c, writer := some c, serverOpen := true, nextId := s.nextId + 1 },
     [.udpDiscover, .listenStart, .connAccepted c.id])

/-- The write of one `_send_command` (line 93) against the current
writer, recording whether the transport was still open. -/
def sendWrite (s : NetState) : List NetEvent :=
  match s.writer with
  | some c => [.wrote c.id c.isOpen]
  | none => []

/-- The teardown at the end of `get_all_data` (lines 244-250): close
the writer's transport and the listener, but keep `self._reader`,
`self._writer` and `self._server` assigned. -/
def teardownNet (s : NetState) : NetState × List NetEvent :=
  let step1 : NetState × List NetEvent :=
    match s.writer with
    | some c =>
      ({ s with
         writer := some { c with isOpen := false }
         reader := s.reader.map (fun r =>
           if r.id = c.id then { r with isOpen := false } else r) },
       [.closedWriter c.id])
    | none => (s, [])
  if step1.1.serverOpen then
    ({ step1.1 with serverOpen := false }, step1.2 ++ [.closedServer])
  else step1

/-- The networking skeleton of one `get_all_data` call: each of the
five `_send_command`s first runs `_ensure_connection` (a no-op once
the reader is set) and then writes; the cycle ends with the
teardown. -/
def pollCycleNet (s : NetState) : NetState × List NetEvent :=
  let e1 := ensureConnection s
  let writes := commandSeq.foldr (fun _ acc => sendWrite e1.1 ++ acc) []
  let e2 := teardownNet e1.1
  (e2.1, e1.2 ++ writes ++ e2.2)

/-! ## Data collector (custom_components/easun_inverter/sensor.py) -/

/-- The 5-tuple `_do_update` receives from `get_all_data`; a generic
client may in principle return `None` sub-records, hence the
options. -/
structure FetchTuple where
  battery : Option BatteryData
  pv : Option PVData
  grid : Option GridData
  output : Option OutputData
  system : Option SystemStatus
deriving DecidableEq

/-- The exceptions `update_data` can raise. -/
inductive UpdError
  | timeoutError
  | runtimeNoData
  | fetchError (e : PyErr)
deriving DecidableEq, Repr

/-- The mutable fields of `DataCollector` touched by an update;
`__init__` (lines 70-78) starts with an empty `_data` dict, a zero
failure counter and no last-success timestamp. -/
structure CollectorState where
  data : Option FetchTuple
  consecutiveFailures : Nat
  lastSuccessful : Option Nat
deriving DecidableEq

/-- `DataCollector.__init__`'s state. -/
def initCollector : CollectorState :=
  { data := none, consecutiveFailures := 0, lastSuccessful := none }

/-- `all(x is None for x in (battery, pv, grid, output, system))`. -/
def allNone (t : FetchTuple) : Prop :=
  t.battery = none ∧ t.pv = none ∧ t.grid = none ∧
  t.output = none ∧ t.system = none

instance (t : FetchTuple) : Decidable (allNone t) := by
  unfold allNone; infer_instance

/-- Every sub-record present. -/
def allSome (t : FetchTuple) : Prop :=
  t.battery.isSome ∧ t.pv.isSome ∧ t.grid.isSome ∧
  t.output.isSome ∧ t.system.isSome

instance (t : FetchTuple) : Decidable (allSome t) := by
  unfold allSome; infer_instance

/-- `_do_update` (lines 106-119): an exception from `get_all_data`
propagates; an all-`None` tuple raises `RuntimeError`; otherwise the
whole `_data` dict is replaced at once, the failure counter reset and
the success timestamp recorded. -/
def doUpdate (s : CollectorState) (fetch : Except PyErr FetchTuple) (now : Nat) :
    CollectorState × Option UpdError :=
  match fetch with
  | .error e => (s, some (.fetchError e))
  | .ok t =>
    if allNone t then (s, some .runtimeNoData)
    else ({ data := some t, consecutiveFailures := 0, lastSuccessful := some now },
          none)

/-- Result of one `update_data` call as seen by its caller. -/
inductive UpdOutcome
  | skipped
  | ok
  | raised (e : UpdError)
deriving DecidableEq, Repr

/-- `update_data` (lines 85-104).  If the lock is already held the
call logs a warning and returns.  Otherwise the inner task runs under
`asyncio.wait_for`; `fetch = none` models the deadline expiring
(`TimeoutError` is logged and re-raised), and any error from
`_do_update` propagates unhandled.  The third component is the lock
state after the call (always released by the `finally`). -/
def updateData (s : CollectorState) (lockHeld : Bool)
    (fetch : Option (Except PyErr FetchTuple)) (now : Nat) :
    CollectorState × UpdOutcome × Bool :=
  if lockHeld then (s, .skipped, true)
  else
    match fetch with
    | none => (s, .raised .timeoutError, false)
    | some f =>
      match doUpdate s f now with
      | (s', none) => (s', .ok, false)
      | (s', some e) => (s', .raised e, false)

/-- `get_data` (lines 121-122) viewed through presence: the empty
initial dict answers `None` for every key; after a successful update
the stored tuple's component is returned. -/
def getDataBattery (s : CollectorState) : Option BatteryData :=
  match s.data with | none => none | some t => t.battery

/-- `get_data("system")` presence. -/
def getDataSystem (s : CollectorState) : Option SystemStatus :=
  match s.data with | none => none | some t => t.system

/-- Lift an ASCII-client result (five mandatory records, lines
252-300) to the optional tuple `_do_update` consumes. -/
def asciiFetch
    (r : Except PyErr (BatteryData × PVData × GridData × OutputData × SystemStatus)) :
    Except PyErr FetchTuple :=
  r.map (fun q =>
    { battery := some q.1, pv := some q.2.1, grid := some q.2.2.1,
      output := some q.2.2.2.1, system := some q.2.2.2.2 })

/-- Modelled from the spec: the register-variant client
(`easunpy/async_isolar.py`, not under `src/`) fills "the same
TelemetrySnapshot shape" per poll (§4.5), and its failure mode is the
null-and-void reply in which every sub-record is absent (§4.6).  Its
successful tuples are therefore all-present or all-absent. -/
def registerVariantTuple (t : FetchTuple) : Prop := allNone t ∨ allSome t

/-- Invariant of the published snapshot: whenever `_data` is
populated, every sub-record is present. -/
def snapshotFull (s : CollectorState) : Prop :=
  ∀ t, s.data = some t → allSome t

/-! ## Concrete sample values used by witnesses -/

/-- The spec's worked example (§8): battery voltage 52.4 V, current
10.2 A, and the other QPIGS fields from the same example reply. -/
def sampleQpigs : QpigsData :=
  { grid_voltage := 230, grid_frequency := 50, output_voltage := 230,
    output_frequency := 50, apparent_power := 3000, active_power := 2800,
    load_percent := 60, bus_voltage := 360, battery_voltage := 262 / 5,
    battery_current := 51 / 5, battery_soc := 85, battery_temp := 35,
    pv_current := 123 / 10, pv_voltage := 180, pv_charge_power := 2000 }

/-- A QPIGS reply whose battery voltage × current is 1.875: the
truncated power (1) differs from the nearest integer (2). -/
def cexQpigsRaw : String :=
  "(230.0 50.0 230.0 50.0 3000 2800 60 360.0 2.5 0.75 85 35 12.3 180.0 0 0 0 0 0 2000)"

/-- The record `_parse_qpigs` produces on `cexQpigsRaw` (battery
voltage 2.5, battery current 0.75). -/
def cexParsed : QpigsData :=
  { grid_voltage := 230, grid_frequency := 50, output_voltage := 230,
    output_frequency := 50, apparent_power := 3000, active_power := 2800,
    load_percent := 60, bus_voltage := 360, battery_voltage := 5 / 2,
    battery_current := 3 / 4, battery_soc := 85, battery_temp := 35,
    pv_current := 123 / 10, pv_voltage := 180, pv_charge_power := 2000 }

/-- A fully populated fetch tuple for exercising the collector. -/
def sampleTuple : FetchTuple :=
  { battery := some { voltage := 262 / 5, current := 51 / 5, power := 534,
                      soc := 85, temperature := 35 }
    pv := some { total_power := 2000, charging_power := 2000,
                 charging_current := 123 / 10, temperature := 0,
                 pv1_voltage := 180, pv1_current := 123 / 10, pv1_power := 2214,
                 pv2_voltage := 0, pv2_current := 0, pv2_power := 0,
                 pv_generated_today := 0, pv_generated_total := 0 }
    grid := some { voltage := 230, power := 2800, frequency := 5000 }
    output := some { voltage := 230, current := 140 / 23, power := 2800,
                     apparent_power := 3000, load_percentage := 60,
                     frequency := 5000 }
    system := some { operating_mode := none, mode_name := "Battery Mode",
                     inverter_time := (), inverter_info := [],
                     warnings := ["No warnings"] } }

/-! ## Lemmas: CRC bitwise correspondence -/

lemma shiftLeft_xor_distrib (a b k : Nat) :
    (a ^^^ b) <<< k = (a <<< k) ^^^ (b <<< k) := by
  apply Nat.eq_of_testBit_eq
  intro i
  simp only [Nat.testBit_shiftLeft, Nat.testBit_xor]
  cases h : decide (i ≥ k) <;> simp

lemma and_ffff (x : Nat) : x &&& 0xFFFF = x % 65536 := by
  have h := Nat.and_pow_two_sub_one_eq_mod x 16
  norm_num at h
  exact h

lemma testBit15_iff (x : Nat) : x &&& 0x8000 ≠ 0 ↔ x.testBit 15 = true := by
  have h := Nat.and_two_pow x 15
  norm_num at h
  rw [h]
  cases hx : x.testBit 15 <;> simp

lemma crcStep_lt (x : Nat) : crcStep x < 65536 := by
  unfold crcStep
  split <;> (rw [and_ffff]; exact Nat.mod_lt _ (by norm_num))

lemma crcBitStep_lt (crc : Nat) (b : Bool) : crcBitStep crc b < 65536 := by
  unfold crcBitStep
  split
  · have h : ((crc <<< 1) &&& 0xFFFF) ^^^ 0x1021 < 2 ^ 16 :=
      Nat.xor_lt_two_pow (by rw [and_ffff]; exact Nat.mod_lt _ (by norm_num))
        (by norm_num)
    omega
  · rw [and_ffff]; exact Nat.mod_lt _ (by norm_num)

lemma msbBits_succ (n b : Nat) :
    msbBits (n + 1) b = b.testBit n :: msbBits n (b % 2 ^ n) := by
  unfold msbBits
  rw [List.range_succ_eq_map, List.map_cons, List.map_map]
  refine congrArg₂ List.cons ?_ ?_
  · norm_num
  · apply List.map_congr_left
    intro i hi
    have hi' : i < n := List.mem_range.mp hi
    have h1 : n + 1 - 1 - (i + 1) = n - 1 - i := by omega
    have h2 : n - 1 - i < n := by omega
    simp only [Function.comp_apply, Nat.succ_eq_add_one, h1, Nat.testBit_mod_two_pow]
    simp [h2]

lemma crcStep_window (crc b n : Nat) (hn : n ≤ 15) :
    crcStep (crc ^^^ (b <<< (15 - n))) =
      crcBitStep crc (b.testBit n) ^^^ ((b % 2 ^ n) <<< (16 - n)) := by
  have hbit : (crc ^^^ (b <<< (15 - n))).testBit 15 =
      (crc.testBit 15).xor (b.testBit n) := by
    rw [Nat.testBit_xor, Nat.testBit_shiftLeft]
    have h1 : (15 : Nat) ≥ 15 - n := by omega
    have h2 : 15 - (15 - n) = n := by omega
    simp [h1, h2]
  have key : ((crc ^^^ (b <<< (15 - n))) <<< 1) &&& 0xFFFF
      = ((crc <<< 1) &&& 0xFFFF) ^^^ ((b % 2 ^ n) <<< (16 - n)) := by
    rw [shiftLeft_xor_distrib, Nat.and_xor_distrib_right]
    congr 1
    rw [← Nat.shiftLeft_add]
    have h3 : 15 - n + 1 = 16 - n := by omega
    rw [h3, and_ffff, Nat.shiftLeft_eq, Nat.shiftLeft_eq]
    have h4 : (65536 : Nat) = 2 ^ n * 2 ^ (16 - n) := by
      rw [← pow_add, show n + (16 - n) = 16 from by omega]
      norm_num
    rw [h4]
    exact Nat.mul_mod_mul_right (2 ^ (16 - n)) b (2 ^ n)
  unfold crcStep crcBitStep
  rcases hc : crc.testBit 15 <;> rcases hb2 : b.testBit n
  · -- both false: no polynomial on either side
    rw [if_neg, if_neg, key]
    · simp [hc, hb2]
    · rw [testBit15_iff, hbit, hc, hb2]; simp
  · -- incoming bit set: polynomial on both sides
    rw [if_pos, if_pos]
    · rw [Nat.and_xor_distrib_right, key]
      have h5 : (0x1021 : Nat) &&& 0xFFFF = 0x1021 := by decide
      rw [h5, Nat.xor_assoc, Nat.xor_assoc]
      congr 1
      exact Nat.xor_comm _ _
    · simp [hc, hb2]
    · rw [testBit15_iff, hbit, hc, hb2]; simp
  · -- register msb set: polynomial on both sides
    rw [if_pos, if_pos]
    · rw [Nat.and_xor_distrib_right, key]
      have h5 : (0x1021 : Nat) &&& 0xFFFF = 0x1021 := by decide
      rw [h5, Nat.xor_assoc, Nat.xor_assoc]
      congr 1
      exact Nat.xor_comm _ _
    · simp [hc, hb2]
    · rw [testBit15_iff, hbit, hc, hb2]; simp
  · -- both set: they cancel, no polynomial
    rw [if_neg, if_neg, key]
    · simp [hc, hb2]
    · rw [testBit15_iff, hbit, hc, hb2]; simp

lemma crcIter_window : ∀ (n : Nat), n ≤ 16 → ∀ (crc b : Nat), b < 2 ^ n →
    crcStep^[n] (crc ^^^ (b <<< (16 - n))) = (msbBits n b).foldl crcBitStep crc := by
  intro n
  induction n with
  | zero =>
    intro _ crc b hb
    have hb0 : b = 0 := by omega
    subst hb0
    simp [msbBits]
  | succ m ih =>
    intro hn crc b _
    rw [Function.iterate_succ_apply]
    have h1 : 16 - (m + 1) = 15 - m := by omega
    rw [h1, crcStep_window crc b m (by omega), msbBits_succ, List.foldl_cons]
    exact ih (by omega) _ _ (Nat.mod_lt _ (by positivity))

lemma crcByte_eq_bits (crc b : Nat) (hb : b < 256) :
    crcByte crc b = (msbBits 8 b).foldl crcBitStep crc := by
  have hb' : b < 2 ^ 8 := lt_of_lt_of_le hb (by norm_num)
  have h := crcIter_window 8 (by omega) crc b hb'
  norm_num at h
  exact h

lemma crcFold_eq : ∀ (data : List Nat) (crc : Nat), (∀ x ∈ data, x < 256) →
    data.foldl crcByte crc =
      data.foldl (fun c b => (msbBits 8 b).foldl crcBitStep c) crc := by
  intro data
  induction data with
  | nil => intro crc _; rfl
  | cons a l ih =>
    intro crc h
    simp only [List.foldl_cons]
    rw [crcByte_eq_bits crc a (h a (List.mem_cons_self a l))]
    exact ih _ (fun x hx => h x (List.mem_cons_of_mem a hx))

lemma crcByte_lt (crc b : Nat) : crcByte crc b < 65536 := by
  unfold crcByte
  rw [show (8 : Nat) = 7 + 1 from rfl, Function.iterate_succ_apply']
  exact crcStep_lt _

lemma computeCrcXmodem_lt (data : List Nat) : computeCrcXmodem data < 65536 := by
  unfold computeCrcXmodem
  have h : ∀ (l : List Nat) (crc : Nat), crc < 65536 → l.foldl crcByte crc < 65536 := by
    intro l
    induction l with
    | nil => intro crc hc; exact hc
    | cons a l ih => intro crc _; exact ih _ (crcByte_lt crc a)
  exact h data 0 (by norm_num)

/-! ## Lemmas: frame layout -/

lemma bytesRecover (n : Nat) :
    ((n >>> 8) &&& 0xFF) * 256 + (n &&& 0xFF) = n % 65536 := by
  have h1 := Nat.and_pow_two_sub_one_eq_mod (n >>> 8) 8
  have h2 := Nat.and_pow_two_sub_one_eq_mod n 8
  norm_num at h1 h2
  rw [h1, h2, Nat.shiftRight_eq_div_pow]
  norm_num
  omega

lemma buildPacket_length (cmd : List Nat) (t : Nat) :
    (buildPacket cmd t).length = 8 + (cmd.length + 3) := by
  unfold buildPacket
  simp
  omega

lemma buildPacket_take6 (cmd : List Nat) (t : Nat) :
    (buildPacket cmd t).take 6 =
      [(t >>> 8) &&& 0xFF, t &&& 0xFF, 0x00, 0x01,
       ((cmd.length + 5) >>> 8) &&& 0xFF, (cmd.length + 5) &&& 0xFF] := by
  unfold buildPacket
  rw [List.take_append_of_le_length (by simp)]
  simp

lemma getD_append8 (a0 a1 a2 a3 a4 a5 a6 a7 : Nat) (l : List Nat) (k : Nat) :
    (([a0, a1, a2, a3, a4, a5, a6, a7] : List Nat) ++ l).getD (8 + k) 0 =
      l.getD k 0 := by
  have h8 : ([a0, a1, a2, a3, a4, a5, a6, a7] : List Nat).length = 8 := rfl
  rw [List.getD_append_right _ _ _ _ (by rw [h8]; omega), h8]
  norm_num

lemma getD_append_cmd (cmd l : List Nat) (j : Nat) :
    (cmd ++ l).getD (cmd.length + j) 0 = l.getD j 0 := by
  rw [List.getD_append_right _ _ _ _ (by omega)]
  congr 1
  omega

lemma buildPacket_crcBytes (cmd : List Nat) (t : Nat) :
    (buildPacket cmd t).getD (8 + cmd.length) 0
      = adjustCrcByte ((computeCrcXmodem cmd >>> 8) &&& 0xFF) ∧
    (buildPacket cmd t).getD (9 + cmd.length) 0
      = adjustCrcByte (computeCrcXmodem cmd &&& 0xFF) := by
  constructor
  · have e1 : 8 + cmd.length = 8 + (cmd.length + 0) := by omega
    unfold buildPacket
    rw [e1, getD_append8, getD_append_cmd]
    rfl
  · have e2 : 9 + cmd.length = 8 + (cmd.length + 1) := by omega
    unfold buildPacket
    rw [e2, getD_append8, getD_append_cmd]
    rfl

/-! ## Claim theorems -/

set_option maxRecDepth 100000 in
/-- C1 counterexample: the claim's "16 shifts per byte" disagrees with
the code.  Running the inner XOR-and-shift loop 16 times per byte
yields a different checksum than `_compute_crc_xmodem` already on the
command `QPIGS`. -/
theorem C1_cex_sixteen_shifts :
    crc16Shifts (asciiBytes "QPIGS") ≠ computeCrcXmodem (asciiBytes "QPIGS") := by
  decide

set_option maxRecDepth 100000 in
/-- C1 (amended: 8 shifts per byte, not 16): for every byte sequence,
`_compute_crc_xmodem` returns the 16-bit CRC with polynomial 0x1021,
MSB-first, no reflection, zero initial value, processed byte-by-byte
with 8 XOR-and-shift steps per byte — i.e. it agrees with the
bit-serial reference CRC on every byte string, its value fits in 16
bits, and it has the XMODEM check value 0x31C3 on "123456789". -/
theorem C1_checksum_xmodem (data : List Nat) (h : ∀ x ∈ data, x < 256) :
    computeCrcXmodem data = crcBitsSpec data ∧
    computeCrcXmodem data < 65536 ∧
    computeCrcXmodem (asciiBytes "123456789") = 0x31C3 := by
  refine ⟨?_, computeCrcXmodem_lt data, by decide⟩
  unfold computeCrcXmodem crcBitsSpec
  exact crcFold_eq data 0 h

set_option maxRecDepth 100000 in
/-- Witness for C1 at the concrete command bytes of `QPIGS`. -/
theorem C1_checksum_xmodem_witness :
    (∀ x ∈ [81, 80, 73, 71, 83], x < 256) ∧
    computeCrcXmodem [81, 80, 73, 71, 83] = crcBitsSpec [81, 80, 73, 71, 83] :=
  ⟨by decide, (C1_checksum_xmodem [81, 80, 73, 71, 83] (by decide)).1⟩

set_option maxRecDepth 100000 in
/-- C2 counterexample: for the command `QPIGS` the payload is 8 bytes
long but the length field of the built frame holds 10, so the field
does not equal the payload length exactly. -/
theorem C2_cex_length_field :
    (buildPacket (asciiBytes "QPIGS") 0).length - 8 = 8 ∧
    parseFrameHeader ((buildPacket (asciiBytes "QPIGS") 0).take 6) = 10 ∧
    (10 : Nat) ≠ 8 := by
  decide

/-- C2 (amended): the big-endian length field at offset 4 of the frame
built by `_build_packet` equals the payload length plus 2, and
`parseFrameHeader` (the big-endian read at offset 4 of the 6-byte
header) recovers exactly that value whenever it fits in 16 bits. -/
theorem C2_length_field_roundtrip (cmd : List Nat) (t : Nat)
    (h : cmd.length + 5 < 65536) :
    (buildPacket cmd t).length - 8 = cmd.length + 3 ∧
    parseFrameHeader ((buildPacket cmd t).take 6) = (cmd.length + 3) + 2 := by
  constructor
  · rw [buildPacket_length]; omega
  · rw [buildPacket_take6]
    unfold parseFrameHeader
    simp only [List.getD]
    norm_num
    rw [bytesRecover]
    omega

set_option maxRecDepth 100000 in
/-- Witness for C2 at the command `QPIGS`, transaction id 0. -/
theorem C2_length_field_roundtrip_witness :
    (asciiBytes "QPIGS").length + 5 < 65536 ∧
    parseFrameHeader ((buildPacket (asciiBytes "QPIGS") 0).take 6) =
      ((asciiBytes "QPIGS").length + 3) + 2 :=
  ⟨by decide, (C2_length_field_roundtrip (asciiBytes "QPIGS") 0 (by decide)).2⟩

/-- Helper: `_adjust_crc_byte` never outputs a control byte. -/
lemma adjustCrcByte_not_ctrl (b : Nat) :
    adjustCrcByte b ≠ 0x0A ∧ adjustCrcByte b ≠ 0x0D ∧ adjustCrcByte b ≠ 0x28 := by
  unfold adjustCrcByte
  split
  · rename_i h
    rcases h with h | h | h <;> subst h <;> exact ⟨by decide, by decide, by decide⟩
  · rename_i h
    push_neg at h
    exact ⟨h.1, h.2.1, h.2.2⟩

/-- C10: `_adjust_crc_byte` bumps exactly the bytes 0x0A, 0x0D, 0x28
by one (mod 256) and leaves every other byte unchanged, and as a
consequence neither escaped checksum byte placed in any built frame
(positions `8 + len(cmd)` and `9 + len(cmd)`) is ever 0x0A, 0x0D or
0x28. -/
theorem C10_escape_bytes (b : Nat) (cmd : List Nat) (t : Nat) :
    (b = 0x0A ∨ b = 0x0D ∨ b = 0x28 → adjustCrcByte b = (b + 1) % 256) ∧
    (¬(b = 0x0A ∨ b = 0x0D ∨ b = 0x28) → adjustCrcByte b = b) ∧
    (adjustCrcByte b ≠ 0x0A ∧ adjustCrcByte b ≠ 0x0D ∧ adjustCrcByte b ≠ 0x28) ∧
    ((buildPacket cmd t).getD (8 + cmd.length) 0 ≠ 0x0A ∧
     (buildPacket cmd t).getD (8 + cmd.length) 0 ≠ 0x0D ∧
     (buildPacket cmd t).getD (8 + cmd.length) 0 ≠ 0x28) ∧
    ((buildPacket cmd t).getD (9 + cmd.length) 0 ≠ 0x0A ∧
     (buildPacket cmd t).getD (9 + cmd.length) 0 ≠ 0x0D ∧
     (buildPacket cmd t).getD (9 + cmd.length) 0 ≠ 0x28) := by
  refine ⟨?_, ?_, adjustCrcByte_not_ctrl b, ?_, ?_⟩
  · intro h
    unfold adjustCrcByte
    rw [if_pos h]
    have h255 := Nat.and_pow_two_sub_one_eq_mod (b + 1) 8
    norm_num at h255
    exact h255
  · intro h
    unfold adjustCrcByte
    rw [if_neg h]
  · rw [(buildPacket_crcBytes cmd t).1]
    exact adjustCrcByte_not_ctrl _
  · rw [(buildPacket_crcBytes cmd t).2]
    exact adjustCrcByte_not_ctrl _

/-- Witness for C10: both branches of the escape rule at concrete
bytes, inside the frame for `QPIGS`. -/
theorem C10_escape_bytes_witness :
    adjustCrcByte 0x0A = (0x0A + 1) % 256 ∧ adjustCrcByte 0x29 = 0x29 :=
  ⟨(C10_escape_bytes 0x0A [] 0).1 (Or.inl rfl),
   (C10_escape_bytes 0x29 [] 0).2.1 (by decide)⟩

/-- C3 counterexample: the fixed command order issued per poll starts
with `QPIGS` (live metrics), not `QPIRI` (device rating) as the claim
states. -/
theorem C3_cex_command_order :
    sentCommands pollSteps = commandSeq ∧
    commandSeq ≠ specCommandSeq ∧
    (sentCommands pollSteps).head? = some "QPIGS" := by
  decide

/-- C3 (amended): each poll cycle issues exactly the five commands
QPIGS, QPIRI, QMOD, QPIWS, QPIGS2 in this order, with a 300 ms sleep
after every command (hence between any two consecutive commands);
300 ms is in the hundreds-of-milliseconds range. -/
theorem C3_command_sequence :
    pollSteps =
      [PollStep.send "QPIGS", PollStep.delayMs 300,
       PollStep.send "QPIRI", PollStep.delayMs 300,
       PollStep.send "QMOD", PollStep.delayMs 300,
       PollStep.send "QPIWS", PollStep.delayMs 300,
       PollStep.send "QPIGS2", PollStep.delayMs 300] ∧
    sentCommands pollSteps = ["QPIGS", "QPIRI", "QMOD", "QPIWS", "QPIGS2"] ∧
    (sentCommands pollSteps).length = 5 ∧
    (100 ≤ 300 ∧ 300 < 1000) := by
  decide

/-- C4 counterexample: three consecutive failed refreshes leave the
consecutive-failure counter at 0 — it is never incremented, and no
backoff delay (2 s, 4 s, 8 s, …) is ever computed. -/
theorem C4_cex_no_backoff :
    (updateData initCollector false (some (.error .valueError)) 0).1.consecutiveFailures
      = 0 ∧
    (updateData (updateData (updateData initCollector false
        (some (.error .valueError)) 0).1 false
        (some (.error .valueError)) 1).1 false
        (some (.error .valueError)) 2).1.consecutiveFailures = 0 ∧
    (0 : Nat) ≠ 3 := by
  refine ⟨rfl, rfl, by decide⟩

/-- C4 (amended): `update_data` resets the consecutive-failure counter
to 0 on success, and on any raised failure (timeout, fetch exception,
or empty reply) leaves the collector state — including the counter —
completely unchanged; no backoff delay is computed and the next
attempt occurs at the fixed scan interval. -/
theorem C4_failure_counter (s : CollectorState)
    (fetch : Option (Except PyErr FetchTuple)) (now : Nat) :
    ((updateData s false fetch now).2.1 = .ok →
      (updateData s false fetch now).1.consecutiveFailures = 0) ∧
    (∀ e, (updateData s false fetch now).2.1 = .raised e →
      (updateData s false fetch now).1 = s) := by
  unfold updateData doUpdate
  cases fetch with
  | none => simp
  | some f =>
    cases f with
    | error e => simp
    | ok t =>
      by_cases h : allNone t <;> simp [h]

/-- Witness for C4: a concrete failed refresh leaves the initial state
unchanged. -/
theorem C4_failure_counter_witness :
    (updateData initCollector false (some (.error .valueError)) 0).1 = initCollector :=
  (C4_failure_counter initCollector (some (.error .valueError)) 0).2
    (.fetchError .valueError) rfl

/-- C5 counterexample: a parse failure inside the fetch is *not*
converted at the `update_data` boundary — it is re-raised to the
caller, as is a timeout. -/
theorem C5_cex_exception_propagates :
    (updateData initCollector false (some (.error .indexError)) 0).2.1 =
      UpdOutcome.raised (.fetchError .indexError) ∧
    (updateData initCollector false none 0).2.1 = UpdOutcome.raised .timeoutError := by
  exact ⟨rfl, rfl⟩

/-- C5 (amended): `update_data` always releases the lock, and an
already-running refresh is skipped without fault, but failures are not
absorbed: a timeout is re-raised after cancelling the task, a fetch
exception propagates unhandled, and an all-`None` reply raises
`RuntimeError` to the caller. -/
theorem C5_failure_propagation (s : CollectorState)
    (fetch : Option (Except PyErr FetchTuple)) (now : Nat) :
    updateData s true fetch now = (s, .skipped, true) ∧
    (updateData s false fetch now).2.2 = false ∧
    (fetch = none →
      (updateData s false fetch now).2.1 = .raised .timeoutError) ∧
    (∀ e, fetch = some (.error e) →
      (updateData s false fetch now).2.1 = .raised (.fetchError e)) ∧
    (∀ t, fetch = some (.ok t) → allNone t →
      (updateData s false fetch now).2.1 = .raised .runtimeNoData) := by
  refine ⟨rfl, ?_, ?_, ?_, ?_⟩
  · unfold updateData doUpdate
    cases fetch with
    | none => simp
    | some f =>
      cases f with
      | error e => simp
      | ok t => by_cases h : allNone t <;> simp [h]
  · intro h; subst h; rfl
  · intro e h; subst h; rfl
  · intro t h ht
    subst h
    unfold updateData doUpdate
    simp [ht]

/-- Witness for C5 at a concrete timed-out refresh. -/
theorem C5_failure_propagation_witness :
    (updateData initCollector false none 0).2.1 = .raised .timeoutError :=
  (C5_failure_propagation initCollector none 0).2.2.1 rfl

set_option maxRecDepth 100000 in
/-- C6 counterexample: `_parse_qpigs` has no length guard — a reply
with only two fields raises `IndexError` instead of returning an
invalid-reply marker. -/
theorem C6_cex_qpigs_index_fault :
    parseQpigs "(230.0 50.0)" = .error PyErr.indexError := by
  rfl

set_option maxRecDepth 100000 in
/-- C6 (amended): only `_parse_qpiri` (< 27 fields) and `_parse_qpiws`
(< 32 characters) return explicit invalid-reply markers on short
input; `_parse_qpigs` and `_parse_qpigs2` perform no such check and
fault with `IndexError`, while `_parse_qmod` never indexes at all. -/
theorem C6_short_reply_guards (raw : String) :
    ((fieldsOf raw).length < 27 →
      parseQpiri raw = [("error", "Invalid QPIRI response")]) ∧
    ((stripParens raw).toList.length < 32 →
      parseQpiws raw = ["Invalid QPIWS response"]) ∧
    parseQpigs2 "()" = .error PyErr.indexError ∧
    parseQmod "()" = "" := by
  refine ⟨?_, ?_, rfl, rfl⟩
  · intro h
    simp only [parseQpiri]
    rw [if_pos h]
  · intro h
    simp only [parseQpiws]
    rw [if_pos h]

set_option maxRecDepth 100000 in
/-- Witness for C6: a three-field QPIRI reply and a twelve-character
QPIWS reply produce the markers. -/
theorem C6_short_reply_guards_witness :
    ((fieldsOf "(1 2 3)").length < 27 ∧
      parseQpiri "(1 2 3)" = [("error", "Invalid QPIRI response")]) ∧
    ((stripParens "(000000000000)").toList.length < 32 ∧
      parseQpiws "(000000000000)" = ["Invalid QPIWS response"]) :=
  ⟨⟨by decide, (C6_short_reply_guards "(1 2 3)").1 (by decide)⟩,
   ⟨by decide, (C6_short_reply_guards "(000000000000)").2.1 (by decide)⟩⟩

set_option maxRecDepth 100000 in
/-- C7 counterexample: for a reply with battery voltage 2.5 and
current 0.75 (product 1.875) the code stores power 1 (truncation via
Python `int()`), although the nearest integer is 2: 1.875 is strictly
closer to 2 than to 1. -/
theorem C7_cex_truncation :
    parseQpigs cexQpigsRaw = .ok cexParsed ∧
    (mkBatteryData cexParsed).power = 1 ∧
    cexParsed.battery_voltage * cexParsed.battery_current - 1 >
      2 - cexParsed.battery_voltage * cexParsed.battery_current ∧
    (1 : Int) ≠ 2 := by
  refine ⟨?_, ?_, by norm_num [cexParsed], by decide⟩
  · have h : parseQpigs cexQpigsRaw = .ok
        { grid_voltage := 1 * ((230 : ℚ) + 0 / 10 ^ 1),
          grid_frequency := 1 * ((50 : ℚ) + 0 / 10 ^ 1),
          output_voltage := 1 * ((230 : ℚ) + 0 / 10 ^ 1),
          output_frequency := 1 * ((50 : ℚ) + 0 / 10 ^ 1),
          apparent_power := pyTrunc ((1 : ℚ) * 3000),
          active_power := pyTrunc ((1 : ℚ) * 2800),
          load_percent := (1 : Int) * 60,
          bus_voltage := 1 * ((360 : ℚ) + 0 / 10 ^ 1),
          battery_voltage := 1 * ((2 : ℚ) + 5 / 10 ^ 1),
          battery_current := 1 * ((0 : ℚ) + 75 / 10 ^ 2),
          battery_soc := (1 : Int) * 85,
          battery_temp := pyTrunc ((1 : ℚ) * 35),
          pv_current := 1 * ((12 : ℚ) + 3 / 10 ^ 1),
          pv_voltage := 1 * ((180 : ℚ) + 0 / 10 ^ 1),
          pv_charge_power := pyTrunc ((1 : ℚ) * 2000) } := rfl
    rw [h]
    congr 1
    unfold cexParsed
    congr 1 <;> norm_num [pyTrunc]
  · have h : (mkBatteryData cexParsed).power = pyTrunc (5 / 2 * (3 / 4)) := rfl
    rw [h, pyTrunc, if_pos (by norm_num),
      show (5 / 2 : ℚ) * (3 / 4) = 15 / 8 from by norm_num,
      Int.floor_eq_iff]
    norm_num

/-- C7 (amended): the derived battery power is voltage × current
*truncated toward zero* (within 1 of the product, never exceeding it
in absolute value), not rounded to nearest; the derived output current
is active power / output voltage with the division-by-zero case
guarded to 0. -/
theorem C7_derived_power (p : QpigsData) :
    (0 ≤ p.battery_voltage * p.battery_current →
      ((mkBatteryData p).power : ℚ) ≤ p.battery_voltage * p.battery_current ∧
      p.battery_voltage * p.battery_current < ((mkBatteryData p).power : ℚ) + 1) ∧
    (p.battery_voltage * p.battery_current < 0 →
      p.battery_voltage * p.battery_current ≤ ((mkBatteryData p).power : ℚ) ∧
      ((mkBatteryData p).power : ℚ) < p.battery_voltage * p.battery_current + 1) ∧
    (p.output_voltage = 0 → (mkOutputData p).current = 0) ∧
    (p.output_voltage ≠ 0 →
      (mkOutputData p).current * p.output_voltage = (p.active_power : ℚ)) := by
  refine ⟨?_, ?_, ?_, ?_⟩
  · intro hq
    have hp : (mkBatteryData p).power = ⌊p.battery_voltage * p.battery_current⌋ := by
      unfold mkBatteryData pyTrunc
      simp [hq]
    rw [hp]
    exact ⟨Int.floor_le _, Int.lt_floor_add_one _⟩
  · intro hq
    have hp : (mkBatteryData p).power = ⌈p.battery_voltage * p.battery_current⌉ := by
      unfold mkBatteryData pyTrunc
      simp [not_le.mpr hq]
    rw [hp]
    exact ⟨Int.le_ceil _, Int.ceil_lt_add_one _⟩
  · intro h
    unfold mkOutputData
    simp [h]
  · intro h
    unfold mkOutputData
    simp only [if_neg h]
    exact div_mul_cancel₀ _ h

/-- Witness for C7 at the spec's worked example (52.4 V × 10.2 A). -/
theorem C7_derived_power_witness :
    0 ≤ sampleQpigs.battery_voltage * sampleQpigs.battery_current ∧
    ((mkBatteryData sampleQpigs).power : ℚ) ≤
      sampleQpigs.battery_voltage * sampleQpigs.battery_current ∧
    sampleQpigs.output_voltage ≠ 0 ∧
    (mkOutputData sampleQpigs).current * sampleQpigs.output_voltage =
      (sampleQpigs.active_power : ℚ) :=
  ⟨by norm_num [sampleQpigs],
   ((C7_derived_power sampleQpigs).1 (by norm_num [sampleQpigs])).1,
   by norm_num [sampleQpigs],
   (C7_derived_power sampleQpigs).2.2.2 (by norm_num [sampleQpigs])⟩

/-- C8: the collector publishes all-or-nothing snapshots.  An
all-`None` fetch is turned into a `RuntimeError` failure that leaves
the stored data untouched; under any fetch outcome whose tuple is
all-present or all-absent (true of the ASCII client, whose results are
always fully populated, and of the spec-modelled register client) the
stored snapshot remains fully populated whenever it exists; and before
the first success every sub-record reads as absent. -/
theorem C8_snapshot_all_or_nothing (s : CollectorState) (t : FetchTuple)
    (f : Except PyErr FetchTuple) (now : Nat)
    (hs : snapshotFull s) (hf : ∀ u, f = .ok u → registerVariantTuple u) :
    (allNone t → doUpdate s (.ok t) now = (s, some .runtimeNoData)) ∧
    snapshotFull (doUpdate s f now).1 ∧
    (∀ r u, asciiFetch r = .ok u → allSome u) ∧
    (getDataBattery initCollector = none ∧ getDataSystem initCollector = none) := by
  refine ⟨?_, ?_, ?_, rfl, rfl⟩
  · intro h
    unfold doUpdate
    simp [h]
  · cases f with
    | error e => exact hs
    | ok u =>
      by_cases h : allNone u
      · unfold doUpdate
        simp only [if_pos h]
        exact hs
      · unfold doUpdate
        simp only [if_neg h]
        intro v hv
        have huv : u = v := Option.some.inj hv
        subst huv
        rcases hf u rfl with hn | hsome
        · exact absurd hn h
        · exact hsome
  · intro r u h
    cases r with
    | error e =>
      have h' : (Except.error e : Except PyErr FetchTuple) = .ok u := h
      exact Except.noConfusion h'
    | ok q =>
      have h' : (Except.ok
          ({ battery := some q.1, pv := some q.2.1, grid := some q.2.2.1,
             output := some q.2.2.2.1, system := some q.2.2.2.2 } : FetchTuple) :
          Except PyErr FetchTuple) = .ok u := h
      rw [← Except.ok.inj h']
      exact ⟨rfl, rfl, rfl, rfl, rfl⟩

/-- Witness for C8: updating the fresh collector with a fully
populated tuple keeps the snapshot invariant. -/
theorem C8_snapshot_all_or_nothing_witness :
    snapshotFull (doUpdate initCollector (.ok sampleTuple) 0).1 :=
  (C8_snapshot_all_or_nothing initCollector sampleTuple (.ok sampleTuple) 0
    (by intro v hv; cases hv)
    (by intro u hu; right; rw [← Except.ok.inj hu]; exact ⟨rfl, rfl, rfl, rfl, rfl⟩)).2.1

set_option maxRecDepth 100000 in
/-- C9: the teardown half of the claim holds, but the fresh-session
half fails in the code.  The first `get_all_data` negotiates (UDP
discovery, listener, inbound accept), writes on the open connection
and then closes both transport and listener; but since
`_reader`/`_writer` are never reset to `None`, the second cycle's
`_ensure_connection` skips negotiation entirely and its commands are
written to the already-closed connection. -/
theorem C9_stale_session_bug :
    ((pollCycleNet initNetState).2.take 3 =
       [NetEvent.udpDiscover, NetEvent.listenStart, NetEvent.connAccepted 0]) ∧
    NetEvent.wrote 0 true ∈ (pollCycleNet initNetState).2 ∧
    NetEvent.closedWriter 0 ∈ (pollCycleNet initNetState).2 ∧
    NetEvent.closedServer ∈ (pollCycleNet initNetState).2 ∧
    (pollCycleNet initNetState).1.reader = some { id := 0, isOpen := false } ∧
    NetEvent.udpDiscover ∉ (pollCycleNet (pollCycleNet initNetState).1).2 ∧
    NetEvent.listenStart ∉ (pollCycleNet (pollCycleNet initNetState).1).2 ∧
    NetEvent.connAccepted 1 ∉ (pollCycleNet (pollCycleNet initNetState).1).2 ∧
    NetEvent.wrote 0 false ∈ (pollCycleNet (pollCycleNet initNetState).1).2 := by
  decide

end Easun




